import Mathlib

/-!
# `write_parquet_cpp` (src/write_parquet.cpp)

A shallow embedding of the single exported function of the package: it imports
an Arrow C stream, materialises a table, builds the Parquet writer
configuration and hands everything to the library's table writer.

* The writer configuration (lines 26-41) is pure: it is a function of
  `delta_columns` and `encoding` only.  The library's builder objects are
  modelled as records that are passed from setter to setter.
* The calls that touch the outside world (lines 22, 24, 43, 46) are answered by
  a `World`: one function per library routine.  The function itself returns how
  the call ended together with the ordered list of library calls it made.

What is taken from the libraries (Arrow, Parquet) rather than from the file:

* the builder keeps one map per per-column setting, `build` gives an entry to
  every path present in a map, and the per-column `encoding` setter throws for
  the two dictionary encodings (codes 2 and 8), which is why line 33 skips them;
* dereferencing an `arrow::Result` (`reader->`, `table->`) is `ValueOrDie`: on a
  failed result the call is aborted with the stored status;
* `Encoding::type` is an unscoped enumeration with enumerators from 0 to 999,
  stored in an unsigned 32-bit integer: the conversion `Encoding::type(n)` keeps
  `n` when `n` is in the range 0..1023 of the enumeration, and the compiled
  conversion of a negative `int` stores `n + 2^32`;
* a successful `io::FileOutputStream::Open` creates or truncates the file.
-/

namespace WriteParquet

/-! ## Library values used by the function -/

/-- The format revisions of `ParquetVersion`; line 28 selects `PARQUET_2_6`. -/
inductive ParquetVersion
  | PARQUET_1_0
  | PARQUET_2_4
  | PARQUET_2_6
  deriving DecidableEq, Repr

/-- The codecs of `Compression`; line 29 selects `ZSTD`. -/
inductive Compression
  | UNCOMPRESSED
  | SNAPPY
  | GZIP
  | BROTLI
  | ZSTD
  | LZ4
  deriving DecidableEq, Repr

/-- A value of the enumeration `Encoding::type`: the unsigned 32-bit integer in
which the enumeration is stored. -/
structure Encoding where
  code : Int
  deriving DecidableEq, Repr

/-- The conversion of the `int` parameter to the unsigned 32-bit integer that
stores the enumeration: a negative `int` n becomes n + 2^32, a non-negative one
is kept.  An `int` lies between -2^31 and 2^31 - 1; an integer outside that
range is no value of the parameter and is left as it is. -/
def intToUnsigned (n : Int) : Int :=
  if -2 ^ 31 ≤ n ∧ n < 0 then n + 2 ^ 32 else n

/-- The conversion `Encoding::type(encoding)` of line 36.  The language defines
it (as value preserving) only for 0..1023, the range of the enumeration; what
is modelled for the other values of an `int` is what the compiled conversion
stores. -/
def Encoding.type (encoding : Int) : Encoding := ⟨intToUnsigned encoding⟩

/-- Enumerator `Encoding::PLAIN`. -/
def Encoding.PLAIN : Encoding := ⟨0⟩
/-- Enumerator `Encoding::PLAIN_DICTIONARY`. -/
def Encoding.PLAIN_DICTIONARY : Encoding := ⟨2⟩
/-- Enumerator `Encoding::RLE_DICTIONARY`. -/
def Encoding.RLE_DICTIONARY : Encoding := ⟨8⟩

/-- The exception the Parquet builder throws when a dictionary encoding is
requested as the explicit (fallback) encoding of a column. -/
inductive ParquetException
  | dictionaryAsFallback (path : String) (e : Encoding)
  deriving DecidableEq, Repr

/-- `ColumnProperties`: what the writer uses for one column.  A field that is
`none` has not been set and is left to the library. -/
structure ColumnProperties where
  encoding : Option Encoding
  codec : Option Compression
  compression_level : Option Int
  dictionary_enabled : Bool
  deriving DecidableEq, Repr

/-- The dictionary default of the library, which line 32 relies on
("dictionary encoding is already the default"). -/
def DEFAULT_IS_DICTIONARY_ENABLED : Bool := true

/-- The column properties of a fresh builder: nothing set, dictionary on. -/
def ColumnProperties.default : ColumnProperties :=
  { encoding := none, codec := none, compression_level := none,
    dictionary_enabled := DEFAULT_IS_DICTIONARY_ENABLED }

/-- The two setters that take a column path (lines 35 and 36). -/
inductive SetterCall
  | disable_dictionary (path : String)
  | encoding (path : String) (e : Encoding)
  deriving DecidableEq, Repr

/-- `WriterProperties::Builder`.  The two maps are keyed by column path;
`calls` is a record of the per-column setters invoked on the builder, in order
(it is not part of what `build` returns). -/
structure Builder where
  version_ : Option ParquetVersion
  default_column_properties_ : ColumnProperties
  encodings_ : String → Option Encoding
  dictionary_enabled_ : String → Option Bool
  calls : List SetterCall

/-- Line 26: `WriterProperties::Builder builder;`. -/
def Builder.new : Builder :=
  { version_ := none
    default_column_properties_ := ColumnProperties.default
    encodings_ := fun _ => none
    dictionary_enabled_ := fun _ => none
    calls := [] }

/-- `builder.version(v)`. -/
def Builder.version (b : Builder) (v : ParquetVersion) : Builder :=
  { b with version_ := some v }

/-- `builder.compression(codec)`: the codec of every column without its own. -/
def Builder.compression (b : Builder) (codec : Compression) : Builder :=
  { b with default_column_properties_ :=
      { b.default_column_properties_ with codec := some codec } }

/-- `builder.compression_level(level)`. -/
def Builder.compression_level (b : Builder) (level : Int) : Builder :=
  { b with default_column_properties_ :=
      { b.default_column_properties_ with compression_level := some level } }

/-- `builder.disable_dictionary(path)`: `dictionary_enabled_[path] = false`. -/
def Builder.disable_dictionary (b : Builder) (path : String) : Builder :=
  { b with
    dictionary_enabled_ := fun k => if k = path then some false else b.dictionary_enabled_ k
    calls := b.calls ++ [SetterCall.disable_dictionary path] }

/-- `builder.encoding(path, e)`: throws for the two dictionary encodings,
otherwise `encodings_[path] = e`. -/
def Builder.encoding (b : Builder) (path : String) (e : Encoding) :
    Except ParquetException Builder :=
  if e = Encoding.PLAIN_DICTIONARY ∨ e = Encoding.RLE_DICTIONARY then
    Except.error (ParquetException.dictionaryAsFallback path e)
  else
    Except.ok
      { b with
        encodings_ := fun k => if k = path then some e else b.encodings_ k
        calls := b.calls ++ [SetterCall.encoding path e] }

/-- `WriterProperties`: the immutable configuration handed to the writer.
`column_properties_` holds an entry for exactly the columns that received an
override. -/
structure WriterProperties where
  version : Option ParquetVersion
  default_column_properties : ColumnProperties
  column_properties_ : String → Option ColumnProperties

/-- `builder.build()`: every path present in one of the per-column maps gets an
entry, which starts from the default column properties and takes the values
recorded for the path. -/
def Builder.build (b : Builder) : WriterProperties :=
  { version := b.version_
    default_column_properties := b.default_column_properties_
    column_properties_ := fun path =>
      match b.encodings_ path, b.dictionary_enabled_ path with
      | none, none => none
      | e, d =>
        some
          { b.default_column_properties_ with
            encoding := e.orElse (fun _ => b.default_column_properties_.encoding)
            dictionary_enabled := d.getD b.default_column_properties_.dictionary_enabled } }

/-- `props->column_properties(path)`: the entry of the path, or the default. -/
def WriterProperties.column_properties (p : WriterProperties) (path : String) :
    ColumnProperties :=
  (p.column_properties_ path).getD p.default_column_properties

/-- `props->dictionary_enabled(path)`. -/
def WriterProperties.dictionary_enabled (p : WriterProperties) (path : String) : Bool :=
  (p.column_properties path).dictionary_enabled

/-- `props->encoding(path)`: the explicit encoding of the column, if any. -/
def WriterProperties.encoding (p : WriterProperties) (path : String) : Option Encoding :=
  (p.column_properties path).encoding

/-- `props->compression(path)`. -/
def WriterProperties.compression (p : WriterProperties) (path : String) :
    Option Compression :=
  (p.column_properties path).codec

/-- `props->compression_level(path)`. -/
def WriterProperties.compression_level (p : WriterProperties) (path : String) :
    Option Int :=
  (p.column_properties path).compression_level

/-- `ArrowWriterProperties`, reduced to the one flag the function sets. -/
structure ArrowWriterProperties where
  store_schema : Bool
  deriving DecidableEq, Repr

/-- `ArrowWriterProperties::Builder()`: the flag starts cleared. -/
def ArrowWriterProperties.Builder : ArrowWriterProperties := { store_schema := false }

/-- The setter `store_schema()` of the Arrow builder (line 41). -/
def ArrowWriterProperties.set_store_schema (_b : ArrowWriterProperties) :
    ArrowWriterProperties :=
  { store_schema := true }

/-! ## Lines 26-41: the writer configuration -/

/-- The value of a C++ `bool` after integral promotion. -/
def boolToInt (b : Bool) : Int := if b then 1 else 0

/-- The guard of line 33 as written: `encoding != 2 & encoding != 8`.  The
comparisons bind tighter than `&`, both are promoted to 0/1, combined with the
bitwise AND, and the `if` tests the result against zero. -/
def overrideGuard (encoding : Int) : Bool :=
  Int.land (boolToInt (encoding != 2)) (boolToInt (encoding != 8)) != 0

/-- The guard with the logical AND, `encoding != 2 && encoding != 8`: the
reading the specification calls the intended one. -/
def logicalGuard (encoding : Int) : Bool :=
  encoding != 2 && encoding != 8

/-- Lines 34-37: the loop over `delta_columns`, first element first; an
exception thrown by a setter ends it.  The index `i` of the source runs over
the positions of the vector in order, so the loop is a recursion on the list
(the `int` index does not wrap for a vector of fewer than 2^31 names). -/
def overrideLoop (encoding : Int) : List String → Builder → Except ParquetException Builder
  | [], builder => Except.ok builder
  | column :: rest, builder =>
    match (builder.disable_dictionary column).encoding column (Encoding.type encoding) with
    | Except.error e => Except.error e
    | Except.ok builder1 => overrideLoop encoding rest builder1

/-- Lines 26-30: the builder after the three global setters. -/
def baseBuilder : Builder :=
  ((Builder.new.version ParquetVersion.PARQUET_2_6).compression Compression.ZSTD).compression_level 10

/-- Lines 26-38: the builder as it stands when `build` is called. -/
def configure (delta_columns : List String) (encoding : Int) :
    Except ParquetException Builder :=
  if overrideGuard encoding then overrideLoop encoding delta_columns baseBuilder
  else Except.ok baseBuilder

/-- Line 40: `props = builder.build()`. -/
def writerProperties (delta_columns : List String) (encoding : Int) :
    Except ParquetException WriterProperties :=
  match configure delta_columns encoding with
  | Except.error e => Except.error e
  | Except.ok builder => Except.ok builder.build

/-- Line 41: `ArrowWriterProperties::Builder().store_schema()->build()`. -/
def arrowWriterProperties : ArrowWriterProperties :=
  ArrowWriterProperties.Builder.set_store_schema

/-- Line 44: `int chunk_size = 1024 * 1024;`. -/
def chunk_size : Int := 1024 * 1024

/-! ## The outside world: lines 21-24 and 43-46 -/

/-- An R object; of the external pointer only the address it holds matters. -/
structure SEXP where
  address : Nat
  deriving DecidableEq, Repr

/-- The pointer `struct ArrowArrayStream*`, as an address. -/
structure ArrowArrayStreamPtr where
  address : Nat
  deriving DecidableEq, Repr

/-- Line 21: `reinterpret_cast<struct ArrowArrayStream*>(R_ExternalPtrAddr(x))`. -/
def R_ExternalPtrAddr (array_stream_xptr : SEXP) : ArrowArrayStreamPtr :=
  ⟨array_stream_xptr.address⟩

/-- The codes of `arrow::StatusCode`. -/
inductive StatusCode
  | OK
  | OutOfMemory
  | KeyError
  | TypeError
  | Invalid
  | IOError
  | CapacityError
  | IndexError
  | Cancelled
  | UnknownError
  | NotImplemented
  | SerializationError
  deriving DecidableEq, Repr

/-- An `arrow::Status`: a code and a message. -/
structure Status where
  code : StatusCode
  msg : String
  deriving DecidableEq, Repr

/-- The test `status.ok()`. -/
def Status.ok (s : Status) : Bool := s.code = StatusCode.OK

/-- An `arrow::Result<T>`: a value or the status of the failure. -/
inductive Result (α : Type)
  | ok (value : α)
  | error (status : Status)
  deriving DecidableEq, Repr

/-- A column of a schema: its name and the name of its type. -/
structure Field where
  name : String
  type : String
  deriving DecidableEq, Repr

/-- A `RecordBatchReader`: the declared schema and the batches still to read,
each batch given by its number of rows. -/
structure RecordBatchReader where
  schema : List Field
  batches : List Nat
  deriving DecidableEq, Repr

/-- A materialised `Table`, as far as this function can tell tables apart. -/
structure Table where
  schema : List Field
  num_rows : Nat
  deriving DecidableEq, Repr

/-- The column names of a table. -/
def Table.column_names (t : Table) : List String := t.schema.map Field.name

/-- An open `io::FileOutputStream`. -/
structure FileOutputStream where
  path : String
  fd : Nat
  deriving DecidableEq, Repr

/-- The memory pools; line 45 takes the default one. -/
inductive MemoryPool
  | default_memory_pool
  deriving DecidableEq, Repr

/-- The answers of the library routines the function calls.  `Open` stands for
`io::FileOutputStream::Open`, which creates or truncates the file when it
succeeds; `WriteTable` for `parquet::arrow::WriteTable`. -/
structure World where
  ImportRecordBatchReader : ArrowArrayStreamPtr → Result RecordBatchReader
  FromRecordBatchReader : RecordBatchReader → Result Table
  Open : String → Result FileOutputStream
  WriteTable : Table → MemoryPool → FileOutputStream → Int → WriterProperties →
    ArrowWriterProperties → Status

/-- A library call made by the function, with its arguments and its answer. -/
inductive Event
  | ImportRecordBatchReader (stream : ArrowArrayStreamPtr) (result : Result RecordBatchReader)
  | FromRecordBatchReader (reader : RecordBatchReader) (result : Result Table)
  | Open (path : String) (result : Result FileOutputStream)
  | WriteTable (table : Table) (pool : MemoryPool) (outfile : FileOutputStream)
      (chunk_size : Int) (props : WriterProperties) (arrow_props : ArrowWriterProperties)
      (status : Status)

/-- How a call of the function ends.
* `returned`: the function returns to its caller; being `void`, it signals nothing.
* `died line status`: a failed `Result` is unwrapped on that line (`ValueOrDie`,
  or the dereference of a `Result`, which is `ValueOrDie` too) and the call is
  aborted with the status.
* `threw e`: an exception of the Parquet builder leaves the function.
* `outOfBounds`: `file_paths[0]` is read from an empty vector; the language
  gives that read no meaning. -/
inductive Outcome
  | returned
  | died (line : Nat) (status : Status)
  | threw (e : ParquetException)
  | outOfBounds
  deriving DecidableEq, Repr

/-- What a call of the function did: the library calls in order, and its end. -/
structure Run where
  outcome : Outcome
  trace : List Event

/-- The test "this event is a call of the table writer". -/
def Event.isWriteTable : Event → Bool
  | Event.WriteTable _ _ _ _ _ _ _ => true
  | _ => false

/-- The test "this event is a call of `Open`, successful or not". -/
def Event.isOpen : Event → Bool
  | Event.Open _ _ => true
  | _ => false

/-- The writer configuration an event hands to the table writer, if it is a
call of the table writer. -/
def Event.props? : Event → Option WriterProperties
  | Event.WriteTable _ _ _ _ props _ _ => some props
  | _ => none

/-- The function `write_parquet_cpp` (lines 19-47).

Line 22 keeps the `Result` of the import and line 24 dereferences it; line 24
keeps the `Result` of the materialisation, which is dereferenced only in the
argument list of line 46, after the file has been opened on line 43.  The
status that line 46 stores is not read afterwards. -/
def write_parquet_cpp (world : World) (array_stream_xptr : SEXP)
    (file_paths : List String) (delta_columns : List String) (encoding : Int) : Run :=
  match file_paths with
  | [] => { outcome := Outcome.outOfBounds, trace := [] }
  | file_path :: _ =>
    let array_stream := R_ExternalPtrAddr array_stream_xptr
    let reader := world.ImportRecordBatchReader array_stream
    let trace1 := [Event.ImportRecordBatchReader array_stream reader]
    match reader with
    | Result.error status => { outcome := Outcome.died 24 status, trace := trace1 }
    | Result.ok reader_ptr =>
      let table := world.FromRecordBatchReader reader_ptr
      let trace2 := trace1 ++ [Event.FromRecordBatchReader reader_ptr table]
      match writerProperties delta_columns encoding with
      | Except.error e => { outcome := Outcome.threw e, trace := trace2 }
      | Except.ok props =>
        let arrow_props := arrowWriterProperties
        let opened := world.Open file_path
        let trace3 := trace2 ++ [Event.Open file_path opened]
        match opened with
        | Result.error status => { outcome := Outcome.died 43 status, trace := trace3 }
        | Result.ok outfile =>
          let memory_pool := MemoryPool.default_memory_pool
          match table with
          | Result.error status => { outcome := Outcome.died 46 status, trace := trace3 }
          | Result.ok table_ptr =>
            let status :=
              world.WriteTable table_ptr memory_pool outfile chunk_size props arrow_props
            { outcome := Outcome.returned
              trace := trace3 ++
                [Event.WriteTable table_ptr memory_pool outfile chunk_size props arrow_props
                  status] }

/-! ## Sample inputs -/

/-- The schema of the scenario: three string columns. -/
def sampleSchema : List Field :=
  [⟨"country", "string"⟩, ⟨"economy", "string"⟩, ⟨"region", "string"⟩]

/-- A reader over one batch of three rows. -/
def sampleReader : RecordBatchReader := { schema := sampleSchema, batches := [3] }

/-- The table of the scenario: three string columns, three rows. -/
def sampleTable : Table := { schema := sampleSchema, num_rows := 3 }

/-- A table that shares no column with the scenario. -/
def otherTable : Table := { schema := [⟨"year", "int32"⟩], num_rows := 0 }

/-- An open output file. -/
def sampleFile : FileOutputStream := { path := "out.parquet", fd := 3 }

/-- A failure status of the file system. -/
def ioError : Status := { code := StatusCode.IOError, msg := "Permission denied" }

/-- A failure status of the importer and of the materialisation. -/
def invalidError : Status := { code := StatusCode.Invalid, msg := "schema mismatch" }

/-- The status of a successful library call. -/
def okStatus : Status := { code := StatusCode.OK, msg := "" }

/-- A world whose four routines give the stated answers whatever they are asked. -/
def sampleWorld (imported : Result RecordBatchReader) (materialised : Result Table)
    (opened : Result FileOutputStream) (written : Status) : World :=
  { ImportRecordBatchReader := fun _ => imported
    FromRecordBatchReader := fun _ => materialised
    Open := fun _ => opened
    WriteTable := fun _ _ _ _ _ _ => written }

/-- An R external pointer. -/
def sampleXptr : SEXP := { address := 4096 }

/-! ## Facts about the guard and the loop -/

theorem overrideGuard_iff (encoding : Int) :
    overrideGuard encoding = true ↔ encoding ≠ 2 ∧ encoding ≠ 8 := by
  unfold overrideGuard boolToInt
  by_cases h2 : encoding = 2
  · subst h2; decide
  · by_cases h8 : encoding = 8
    · subst h8; decide
    · simp [h2, h8]
      decide

/-- The guard with `&` and the guard with `&&` have the same value. -/
theorem overrideGuard_eq_logicalGuard (encoding : Int) :
    overrideGuard encoding = logicalGuard encoding := by
  by_cases hg : overrideGuard encoding = true
  · obtain ⟨h2, h8⟩ := (overrideGuard_iff encoding).1 hg
    simp [hg, logicalGuard, h2, h8]
  · have hor : encoding = 2 ∨ encoding = 8 := by
      by_contra hcon
      exact hg ((overrideGuard_iff encoding).2
        ⟨fun e => hcon (Or.inl e), fun e => hcon (Or.inr e)⟩)
    rcases hor with h | h <;> subst h <;> decide

theorem encoding_type_not_dictionary (encoding : Int) (h2 : encoding ≠ 2) (h8 : encoding ≠ 8) :
    ¬ (Encoding.type encoding = Encoding.PLAIN_DICTIONARY ∨
        Encoding.type encoding = Encoding.RLE_DICTIONARY) := by
  simp only [Encoding.type, Encoding.PLAIN_DICTIONARY, Encoding.RLE_DICTIONARY,
    Encoding.mk.injEq, intToUnsigned]
  split <;> omega

/-- The loop never throws for a selector other than 2 and 8, and its effect on
the builder is: both maps updated on exactly the listed names. -/
theorem overrideLoop_ok (encoding : Int) (h2 : encoding ≠ 2) (h8 : encoding ≠ 8)
    (delta_columns : List String) (b : Builder) :
    ∃ b1, overrideLoop encoding delta_columns b = Except.ok b1 ∧
      b1.version_ = b.version_ ∧
      b1.default_column_properties_ = b.default_column_properties_ ∧
      b1.encodings_ =
        (fun k => if k ∈ delta_columns then some (Encoding.type encoding) else b.encodings_ k) ∧
      b1.dictionary_enabled_ =
        (fun k => if k ∈ delta_columns then some false else b.dictionary_enabled_ k) := by
  induction delta_columns generalizing b with
  | nil => exact ⟨b, rfl, rfl, rfl, by simp, by simp⟩
  | cons column rest ih =>
    have hnd := encoding_type_not_dictionary encoding h2 h8
    obtain ⟨b1, hb1, hv, hd, he, hdict⟩ :=
      ih { b with
            encodings_ := fun k =>
              if k = column then some (Encoding.type encoding) else b.encodings_ k
            dictionary_enabled_ := fun k =>
              if k = column then some false else b.dictionary_enabled_ k
            calls := (b.calls ++ [SetterCall.disable_dictionary column]) ++
              [SetterCall.encoding column (Encoding.type encoding)] }
    refine ⟨b1, ?_, hv, hd, ?_, ?_⟩
    · simp only [overrideLoop, Builder.encoding, Builder.disable_dictionary, if_neg hnd]
      exact hb1
    · rw [he]
      funext k
      by_cases hk : k = column
      · simp [hk]
      · by_cases hr : k ∈ rest <;> simp [hk, hr]
    · rw [hdict]
      funext k
      by_cases hk : k = column
      · simp [hk]
      · by_cases hr : k ∈ rest <;> simp [hk, hr]

/-- The setter calls made by the loop for a selector other than 2 and 8: the
two setters for each listed name, in the order of the list. -/
theorem overrideLoop_calls (encoding : Int) (h2 : encoding ≠ 2) (h8 : encoding ≠ 8)
    (delta_columns : List String) (b : Builder) :
    ∃ b1, overrideLoop encoding delta_columns b = Except.ok b1 ∧
      b1.calls = b.calls ++ delta_columns.flatMap (fun c =>
        [SetterCall.disable_dictionary c, SetterCall.encoding c (Encoding.type encoding)]) := by
  induction delta_columns generalizing b with
  | nil => exact ⟨b, rfl, by simp⟩
  | cons column rest ih =>
    have hnd := encoding_type_not_dictionary encoding h2 h8
    obtain ⟨b1, hb1, hcalls⟩ :=
      ih { b with
            encodings_ := fun k =>
              if k = column then some (Encoding.type encoding) else b.encodings_ k
            dictionary_enabled_ := fun k =>
              if k = column then some false else b.dictionary_enabled_ k
            calls := (b.calls ++ [SetterCall.disable_dictionary column]) ++
              [SetterCall.encoding column (Encoding.type encoding)] }
    refine ⟨b1, ?_, ?_⟩
    · simp only [overrideLoop, Builder.encoding, Builder.disable_dictionary, if_neg hnd]
      exact hb1
    · rw [hcalls]
      simp [List.flatMap_cons]

/-- Two configurations with the same fields are the same configuration. -/
theorem WriterProperties.eq_of_fields (p q : WriterProperties)
    (hv : p.version = q.version)
    (hd : p.default_column_properties = q.default_column_properties)
    (hc : p.column_properties_ = q.column_properties_) : p = q := by
  cases p
  cases q
  simp only [WriterProperties.mk.injEq]
  exact ⟨hv, hd, hc⟩

/-- The configuration built for a selector other than 2 and 8: the global
settings, and an entry for exactly the listed names. -/
theorem writerProperties_override (encoding : Int) (h2 : encoding ≠ 2) (h8 : encoding ≠ 8)
    (delta_columns : List String) :
    ∃ p, writerProperties delta_columns encoding = Except.ok p ∧
      p.version = some ParquetVersion.PARQUET_2_6 ∧
      p.default_column_properties =
        { encoding := none, codec := some Compression.ZSTD, compression_level := some 10,
          dictionary_enabled := true } ∧
      p.column_properties_ =
        (fun k =>
          if k ∈ delta_columns then
            some { encoding := some (Encoding.type encoding), codec := some Compression.ZSTD,
                   compression_level := some 10, dictionary_enabled := false }
          else none) := by
  obtain ⟨b1, hb1, hv, hd, he, hdict⟩ :=
    overrideLoop_ok encoding h2 h8 delta_columns baseBuilder
  have hg : overrideGuard encoding = true := (overrideGuard_iff encoding).2 ⟨h2, h8⟩
  refine ⟨b1.build, ?_, ?_, ?_, ?_⟩
  · simp only [writerProperties, configure, hg, if_true, hb1]
  · simp only [Builder.build, hv]
    rfl
  · simp only [Builder.build, hd]
    rfl
  · simp only [Builder.build, hd, he, hdict]
    funext k
    by_cases hk : k ∈ delta_columns
    · simp only [hk, if_true]
      rfl
    · simp only [hk, if_false]
      rfl

/-- The configuration built for the selectors 2 and 8: the loop is not entered
and the builder of lines 26-30 is built as it stands. -/
theorem writerProperties_sentinel (encoding : Int) (h : encoding = 2 ∨ encoding = 8)
    (delta_columns : List String) :
    configure delta_columns encoding = Except.ok baseBuilder ∧
      writerProperties delta_columns encoding = Except.ok baseBuilder.build := by
  have hg : overrideGuard encoding = false := by
    rcases h with h | h <;> subst h <;> decide
  constructor
  · simp [configure, hg]
  · simp [writerProperties, configure, hg]

/-- Building the configuration never throws. -/
theorem writerProperties_ok (delta_columns : List String) (encoding : Int) :
    ∃ p, writerProperties delta_columns encoding = Except.ok p := by
  by_cases h : encoding = 2 ∨ encoding = 8
  · exact ⟨_, (writerProperties_sentinel encoding h delta_columns).2⟩
  · have h2 : encoding ≠ 2 := fun e => h (Or.inl e)
    have h8 : encoding ≠ 8 := fun e => h (Or.inr e)
    obtain ⟨p, hp, _⟩ := writerProperties_override encoding h2 h8 delta_columns
    exact ⟨p, hp⟩

/-! ## The four ways a call can go -/

/-- The import fails: the call dies on line 24 after the one library call. -/
theorem run_import_error (world : World) (xptr : SEXP) (file_path : String)
    (rest delta_columns : List String) (encoding : Int) (s : Status)
    (himp : world.ImportRecordBatchReader (R_ExternalPtrAddr xptr) = Result.error s) :
    write_parquet_cpp world xptr (file_path :: rest) delta_columns encoding =
      { outcome := Outcome.died 24 s
        trace := [Event.ImportRecordBatchReader (R_ExternalPtrAddr xptr) (Result.error s)] } := by
  simp only [write_parquet_cpp, himp]

/-- The import succeeds and the file cannot be opened: the call dies on line 43. -/
theorem run_open_error (world : World) (xptr : SEXP) (file_path : String)
    (rest delta_columns : List String) (encoding : Int) (r : RecordBatchReader) (s : Status)
    (himp : world.ImportRecordBatchReader (R_ExternalPtrAddr xptr) = Result.ok r)
    (hopen : world.Open file_path = Result.error s) :
    write_parquet_cpp world xptr (file_path :: rest) delta_columns encoding =
      { outcome := Outcome.died 43 s
        trace :=
          [Event.ImportRecordBatchReader (R_ExternalPtrAddr xptr) (Result.ok r),
           Event.FromRecordBatchReader r (world.FromRecordBatchReader r),
           Event.Open file_path (Result.error s)] } := by
  obtain ⟨p, hp⟩ := writerProperties_ok delta_columns encoding
  simp only [write_parquet_cpp, himp, hp, hopen, List.cons_append, List.nil_append]

/-- The import succeeds, the file is opened and the materialisation had
failed: the call dies on line 46, after the file has been opened. -/
theorem run_table_error (world : World) (xptr : SEXP) (file_path : String)
    (rest delta_columns : List String) (encoding : Int) (r : RecordBatchReader)
    (out : FileOutputStream) (s : Status)
    (himp : world.ImportRecordBatchReader (R_ExternalPtrAddr xptr) = Result.ok r)
    (htab : world.FromRecordBatchReader r = Result.error s)
    (hopen : world.Open file_path = Result.ok out) :
    write_parquet_cpp world xptr (file_path :: rest) delta_columns encoding =
      { outcome := Outcome.died 46 s
        trace :=
          [Event.ImportRecordBatchReader (R_ExternalPtrAddr xptr) (Result.ok r),
           Event.FromRecordBatchReader r (Result.error s),
           Event.Open file_path (Result.ok out)] } := by
  obtain ⟨p, hp⟩ := writerProperties_ok delta_columns encoding
  simp only [write_parquet_cpp, himp, hp, hopen, htab, List.cons_append, List.nil_append]

/-- Import, materialisation and opening succeed: the table writer is called
once and the function returns. -/
theorem run_written (world : World) (xptr : SEXP) (file_path : String)
    (rest delta_columns : List String) (encoding : Int) (r : RecordBatchReader) (t : Table)
    (out : FileOutputStream) (p : WriterProperties)
    (himp : world.ImportRecordBatchReader (R_ExternalPtrAddr xptr) = Result.ok r)
    (htab : world.FromRecordBatchReader r = Result.ok t)
    (hopen : world.Open file_path = Result.ok out)
    (hp : writerProperties delta_columns encoding = Except.ok p) :
    write_parquet_cpp world xptr (file_path :: rest) delta_columns encoding =
      { outcome := Outcome.returned
        trace :=
          [Event.ImportRecordBatchReader (R_ExternalPtrAddr xptr) (Result.ok r),
           Event.FromRecordBatchReader r (Result.ok t),
           Event.Open file_path (Result.ok out),
           Event.WriteTable t MemoryPool.default_memory_pool out chunk_size p
             arrowWriterProperties
             (world.WriteTable t MemoryPool.default_memory_pool out chunk_size p
               arrowWriterProperties)] } := by
  simp only [write_parquet_cpp, himp, hp, hopen, htab, List.cons_append, List.nil_append]

/-! ## The claims about the writer configuration -/

/-- C2: for the selectors 2 and 8 and every `delta_columns`, the builder that is
built has had no per-column setter invoked on it (neither `disable_dictionary`
nor `encoding`), the configuration equals the one built from an empty
`delta_columns`, and every column has dictionary encoding enabled and no
explicit encoding. -/
theorem sentinel_applies_no_override (encoding : Int) (delta_columns : List String)
    (h : encoding = 2 ∨ encoding = 8) :
    (∃ b, configure delta_columns encoding = Except.ok b ∧ b.calls = []) ∧
    writerProperties delta_columns encoding = writerProperties [] encoding ∧
    ∃ p, writerProperties delta_columns encoding = Except.ok p ∧
      ∀ c, p.column_properties_ c = none ∧ p.dictionary_enabled c = true ∧
        p.encoding c = none := by
  obtain ⟨hcfg, hprops⟩ := writerProperties_sentinel encoding h delta_columns
  refine ⟨⟨baseBuilder, hcfg, rfl⟩, ?_, baseBuilder.build, hprops, ?_⟩
  · rw [hprops, (writerProperties_sentinel encoding h []).2]
  · intro c
    exact ⟨rfl, rfl, rfl⟩

/-- C2 at selector 8 with three listed columns. -/
theorem sentinel_applies_no_override_witness :
    (∃ b, configure ["country", "economy", "region"] 8 = Except.ok b ∧ b.calls = []) ∧
    writerProperties ["country", "economy", "region"] 8 = writerProperties [] 8 ∧
    ∃ p, writerProperties ["country", "economy", "region"] 8 = Except.ok p ∧
      ∀ c, p.column_properties_ c = none ∧ p.dictionary_enabled c = true ∧
        p.encoding c = none :=
  sentinel_applies_no_override 8 ["country", "economy", "region"] (Or.inr rfl)

/-- C3: for every selector and every `delta_columns`, a name that does not
occur in `delta_columns` has no entry in the built configuration: dictionary
encoding stays enabled and no explicit encoding is recorded for it. -/
theorem unlisted_column_keeps_default (encoding : Int) (delta_columns : List String)
    (c : String) (hc : c ∉ delta_columns) :
    ∃ p, writerProperties delta_columns encoding = Except.ok p ∧
      p.column_properties_ c = none ∧ p.dictionary_enabled c = true ∧
      p.encoding c = none := by
  by_cases h : encoding = 2 ∨ encoding = 8
  · exact ⟨baseBuilder.build, (writerProperties_sentinel encoding h delta_columns).2,
      rfl, rfl, rfl⟩
  · have h2 : encoding ≠ 2 := fun e => h (Or.inl e)
    have h8 : encoding ≠ 8 := fun e => h (Or.inr e)
    obtain ⟨p, hp, _, hd, hcol⟩ := writerProperties_override encoding h2 h8 delta_columns
    refine ⟨p, hp, ?_, ?_, ?_⟩
    · simp [hcol, hc]
    · simp [WriterProperties.dictionary_enabled, WriterProperties.column_properties,
        hcol, hc, hd]
    · simp [WriterProperties.encoding, WriterProperties.column_properties, hcol, hc, hd]

/-- C3 on the scenario: columns country, economy, region, selector 0 (plain)
and `delta_columns = [economy]`: economy is plain with the dictionary disabled,
country and region keep the dictionary default. -/
theorem unlisted_column_keeps_default_witness :
    ∃ p, writerProperties ["economy"] 0 = Except.ok p ∧
      p.encoding "economy" = some Encoding.PLAIN ∧ p.dictionary_enabled "economy" = false ∧
      (p.column_properties_ "country" = none ∧ p.dictionary_enabled "country" = true ∧
        p.encoding "country" = none) ∧
      (p.column_properties_ "region" = none ∧ p.dictionary_enabled "region" = true ∧
        p.encoding "region" = none) := by
  obtain ⟨p, hp, hcountry⟩ :=
    unlisted_column_keeps_default 0 ["economy"] "country" (by decide)
  obtain ⟨q, hq, hregion⟩ :=
    unlisted_column_keeps_default 0 ["economy"] "region" (by decide)
  obtain ⟨r, hr, _, _, hcol⟩ := writerProperties_override 0 (by decide) (by decide) ["economy"]
  have hqp : q = p := by
    rw [hp] at hq
    exact (Except.ok.inj hq).symm
  have hrp : r = p := by
    rw [hp] at hr
    exact (Except.ok.inj hr).symm
  subst hqp
  subst hrp
  refine ⟨_, hp, ?_, ?_, hcountry, hregion⟩
  · simp [WriterProperties.encoding, WriterProperties.column_properties, hcol,
      Encoding.type, Encoding.PLAIN, intToUnsigned]
  · simp [WriterProperties.dictionary_enabled, WriterProperties.column_properties, hcol]

/-- C7: the built configuration depends only on the set of names in
`delta_columns`: two lists with the same members (in any order, with any
repetitions) give the same result of `writerProperties`, for every selector. -/
theorem configuration_depends_on_name_set (encoding : Int) (l1 l2 : List String)
    (hset : ∀ c, c ∈ l1 ↔ c ∈ l2) :
    writerProperties l1 encoding = writerProperties l2 encoding := by
  by_cases h : encoding = 2 ∨ encoding = 8
  · rw [(writerProperties_sentinel encoding h l1).2, (writerProperties_sentinel encoding h l2).2]
  · have h2 : encoding ≠ 2 := fun e => h (Or.inl e)
    have h8 : encoding ≠ 8 := fun e => h (Or.inr e)
    obtain ⟨p, hp, hpv, hpd, hpc⟩ := writerProperties_override encoding h2 h8 l1
    obtain ⟨q, hq, hqv, hqd, hqc⟩ := writerProperties_override encoding h2 h8 l2
    have hpq : p = q := by
      apply WriterProperties.eq_of_fields
      · rw [hpv, hqv]
      · rw [hpd, hqd]
      · rw [hpc, hqc]
        funext k
        by_cases hk : k ∈ l1
        · have hk2 : k ∈ l2 := (hset k).1 hk
          simp [hk, hk2]
        · have hk2 : k ∉ l2 := fun hmem => hk ((hset k).2 hmem)
          simp [hk, hk2]
    rw [hp, hq, hpq]

/-- C7 on a list with a repeated and reordered name, selector 5. -/
theorem configuration_depends_on_name_set_witness :
    writerProperties ["economy", "region", "economy"] 5 =
      writerProperties ["region", "economy"] 5 :=
  configuration_depends_on_name_set 5 ["economy", "region", "economy"] ["region", "economy"]
    (by
      intro c
      simp only [List.mem_cons, List.mem_singleton, List.not_mem_nil, or_false]
      tauto)

/-- C8, refuted: no selector makes the guard written with `&` differ from the
guard written with `&&`. -/
theorem no_encoding_separates_the_guards :
    ¬ ∃ encoding : Int, overrideGuard encoding ≠ logicalGuard encoding := by
  rintro ⟨encoding, hne⟩
  exact hne (overrideGuard_eq_logicalGuard encoding)

/-- C8, amended: for every selector the guard of line 33, written with the
bitwise AND, has the same truth value as the logical AND of the two
comparisons; the override loop runs exactly when the selector is neither 2 nor
8. -/
theorem bitwise_guard_agrees_with_logical (encoding : Int) :
    overrideGuard encoding = logicalGuard encoding ∧
    (overrideGuard encoding = true ↔ encoding ≠ 2 ∧ encoding ≠ 8) :=
  ⟨overrideGuard_eq_logicalGuard encoding, overrideGuard_iff encoding⟩

/-- C5: for every selector and every `delta_columns` the global write settings
are the same: format version 2.6, ZSTD at level 10 for every column, the
store-schema flag set in the Arrow writer properties, and a chunk size of
1024*1024 = 1048576; and every call of the table writer that the function
makes, in any world, passes exactly these values. -/
theorem global_settings_are_fixed (encoding : Int) (delta_columns : List String) :
    ∃ p, writerProperties delta_columns encoding = Except.ok p ∧
      p.version = some ParquetVersion.PARQUET_2_6 ∧
      (∀ c, p.compression c = some Compression.ZSTD ∧ p.compression_level c = some 10) ∧
      arrowWriterProperties.store_schema = true ∧
      chunk_size = 1048576 ∧
      ∀ (world : World) (xptr : SEXP) (file_paths : List String) (e : Event),
        e ∈ (write_parquet_cpp world xptr file_paths delta_columns encoding).trace →
        e.isWriteTable = true →
        ∃ t out st,
          e = Event.WriteTable t MemoryPool.default_memory_pool out 1048576 p
            arrowWriterProperties st := by
  have hsettings : ∃ p, writerProperties delta_columns encoding = Except.ok p ∧
      p.version = some ParquetVersion.PARQUET_2_6 ∧
      (∀ c, p.compression c = some Compression.ZSTD ∧ p.compression_level c = some 10) := by
    by_cases h : encoding = 2 ∨ encoding = 8
    · exact ⟨baseBuilder.build, (writerProperties_sentinel encoding h delta_columns).2, rfl,
        fun c => ⟨rfl, rfl⟩⟩
    · have h2 : encoding ≠ 2 := fun e => h (Or.inl e)
      have h8 : encoding ≠ 8 := fun e => h (Or.inr e)
      obtain ⟨p, hp, hv, hd, hcol⟩ := writerProperties_override encoding h2 h8 delta_columns
      refine ⟨p, hp, hv, ?_⟩
      intro c
      by_cases hc : c ∈ delta_columns <;>
        simp [WriterProperties.compression, WriterProperties.compression_level,
          WriterProperties.column_properties, hcol, hd, hc]
  obtain ⟨p, hp, hv, hcodec⟩ := hsettings
  refine ⟨p, hp, hv, hcodec, rfl, by decide, ?_⟩
  intro world xptr file_paths e hmem hw
  cases file_paths with
  | nil => simp [write_parquet_cpp] at hmem
  | cons file_path rest =>
    cases hI : world.ImportRecordBatchReader (R_ExternalPtrAddr xptr) with
    | error s =>
      rw [run_import_error world xptr file_path rest delta_columns encoding s hI] at hmem
      simp only [List.mem_singleton] at hmem
      subst hmem
      simp [Event.isWriteTable] at hw
    | ok r =>
      cases hO : world.Open file_path with
      | error s =>
        rw [run_open_error world xptr file_path rest delta_columns encoding r s hI hO] at hmem
        simp only [List.mem_cons, List.mem_singleton, List.not_mem_nil, or_false] at hmem
        rcases hmem with h | h | h <;> subst h <;> simp [Event.isWriteTable] at hw
      | ok out =>
        cases hT : world.FromRecordBatchReader r with
        | error s =>
          rw [run_table_error world xptr file_path rest delta_columns encoding r out s hI hT hO]
            at hmem
          simp only [List.mem_cons, List.mem_singleton, List.not_mem_nil, or_false] at hmem
          rcases hmem with h | h | h <;> subst h <;> simp [Event.isWriteTable] at hw
        | ok t =>
          rw [run_written world xptr file_path rest delta_columns encoding r t out p hI hT hO hp]
            at hmem
          simp only [List.mem_cons, List.mem_singleton, List.not_mem_nil, or_false] at hmem
          rcases hmem with h | h | h | h
          · subst h; simp [Event.isWriteTable] at hw
          · subst h; simp [Event.isWriteTable] at hw
          · subst h; simp [Event.isWriteTable] at hw
          · exact ⟨t, out, _, h⟩

/-! ## The claims about failures -/

/-- C4: once the stream has been imported and the output file opened, whatever
status the table writer returns, the function returns normally: a call of the
table writer with any status in the trace means the outcome is `returned`; and
when the table is there the writer is called and the outcome is `returned`
with the status being whatever the world answers, failures included. -/
theorem write_status_never_propagated (world : World) (xptr : SEXP) (file_path : String)
    (rest delta_columns : List String) (encoding : Int) (r : RecordBatchReader)
    (out : FileOutputStream)
    (himp : world.ImportRecordBatchReader (R_ExternalPtrAddr xptr) = Result.ok r)
    (hopen : world.Open file_path = Result.ok out) :
    (∀ t pool o cs p ap (status : Status),
      Event.WriteTable t pool o cs p ap status ∈
        (write_parquet_cpp world xptr (file_path :: rest) delta_columns encoding).trace →
      (write_parquet_cpp world xptr (file_path :: rest) delta_columns encoding).outcome =
        Outcome.returned) ∧
    (∀ t, world.FromRecordBatchReader r = Result.ok t →
      ∃ p, writerProperties delta_columns encoding = Except.ok p ∧
        (write_parquet_cpp world xptr (file_path :: rest) delta_columns encoding).outcome =
          Outcome.returned ∧
        Event.WriteTable t MemoryPool.default_memory_pool out chunk_size p arrowWriterProperties
            (world.WriteTable t MemoryPool.default_memory_pool out chunk_size p
              arrowWriterProperties) ∈
          (write_parquet_cpp world xptr (file_path :: rest) delta_columns encoding).trace) := by
  obtain ⟨p, hp⟩ := writerProperties_ok delta_columns encoding
  cases hT : world.FromRecordBatchReader r with
  | error s =>
    rw [run_table_error world xptr file_path rest delta_columns encoding r out s himp hT hopen]
    constructor
    · intro t pool o cs q ap status hmem
      simp at hmem
    · intro t ht
      cases ht
  | ok t =>
    rw [run_written world xptr file_path rest delta_columns encoding r t out p himp hT hopen hp]
    constructor
    · intro _ _ _ _ _ _ _ _
      rfl
    · intro t1 ht1
      cases ht1
      exact ⟨p, hp, rfl, by simp⟩

/-- C4 in a world where the table writer fails with an I/O error: the function
still returns normally. -/
theorem write_status_never_propagated_witness :
    ioError.ok = false ∧
    ∃ p, writerProperties ["economy"] 0 = Except.ok p ∧
      (write_parquet_cpp
          (sampleWorld (Result.ok sampleReader) (Result.ok sampleTable) (Result.ok sampleFile)
            ioError)
          sampleXptr ["out.parquet"] ["economy"] 0).outcome = Outcome.returned ∧
      Event.WriteTable sampleTable MemoryPool.default_memory_pool sampleFile chunk_size p
          arrowWriterProperties ioError ∈
        (write_parquet_cpp
          (sampleWorld (Result.ok sampleReader) (Result.ok sampleTable) (Result.ok sampleFile)
            ioError)
          sampleXptr ["out.parquet"] ["economy"] 0).trace :=
  ⟨by decide,
   (write_status_never_propagated
      (sampleWorld (Result.ok sampleReader) (Result.ok sampleTable) (Result.ok sampleFile)
        ioError)
      sampleXptr "out.parquet" [] ["economy"] 0 sampleReader sampleFile rfl rfl).2
    sampleTable rfl⟩

/-- C6: if the import of the stream handle fails, or the materialisation of
the table from the imported reader fails, or the target path cannot be opened,
then the call does not return: it dies on the line that unwraps a failed
result (24, 43 or 46), and the table writer is not called. -/
theorem failed_step_aborts_before_write (world : World) (xptr : SEXP) (file_path : String)
    (rest delta_columns : List String) (encoding : Int)
    (hfail :
      (∃ s, world.ImportRecordBatchReader (R_ExternalPtrAddr xptr) = Result.error s) ∨
      (∃ r s, world.ImportRecordBatchReader (R_ExternalPtrAddr xptr) = Result.ok r ∧
        world.FromRecordBatchReader r = Result.error s) ∨
      (∃ s, world.Open file_path = Result.error s)) :
    (∃ line s, line ∈ [24, 43, 46] ∧
      (write_parquet_cpp world xptr (file_path :: rest) delta_columns encoding).outcome =
        Outcome.died line s) ∧
    (write_parquet_cpp world xptr (file_path :: rest) delta_columns encoding).outcome ≠
      Outcome.returned ∧
    ∀ e ∈ (write_parquet_cpp world xptr (file_path :: rest) delta_columns encoding).trace,
      e.isWriteTable = false := by
  cases hI : world.ImportRecordBatchReader (R_ExternalPtrAddr xptr) with
  | error s =>
    rw [run_import_error world xptr file_path rest delta_columns encoding s hI]
    refine ⟨⟨24, s, by decide, rfl⟩, by simp, ?_⟩
    intro e hmem
    simp only [List.mem_singleton] at hmem
    subst hmem
    rfl
  | ok r =>
    cases hO : world.Open file_path with
    | error s =>
      rw [run_open_error world xptr file_path rest delta_columns encoding r s hI hO]
      refine ⟨⟨43, s, by decide, rfl⟩, by simp, ?_⟩
      intro e hmem
      simp only [List.mem_cons, List.mem_singleton, List.not_mem_nil, or_false] at hmem
      rcases hmem with h | h | h <;> subst h <;> rfl
    | ok out =>
      cases hT : world.FromRecordBatchReader r with
      | error s =>
        rw [run_table_error world xptr file_path rest delta_columns encoding r out s hI hT hO]
        refine ⟨⟨46, s, by decide, rfl⟩, by simp, ?_⟩
        intro e hmem
        simp only [List.mem_cons, List.mem_singleton, List.not_mem_nil, or_false] at hmem
        rcases hmem with h | h | h <;> subst h <;> rfl
      | ok t =>
        exfalso
        rcases hfail with ⟨s, hs⟩ | ⟨r1, s, hr1, hs⟩ | ⟨s, hs⟩
        · rw [hI] at hs
          cases hs
        · rw [hI] at hr1
          cases hr1
          rw [hT] at hs
          cases hs
        · rw [hO] at hs
          cases hs

/-- C6 in three worlds: the import fails; the materialisation fails; the path
cannot be opened. -/
theorem failed_step_aborts_before_write_witness :
    (write_parquet_cpp
        (sampleWorld (Result.error invalidError) (Result.ok sampleTable) (Result.ok sampleFile)
          okStatus)
        sampleXptr ["out.parquet"] ["economy"] 0).outcome ≠ Outcome.returned ∧
    (write_parquet_cpp
        (sampleWorld (Result.ok sampleReader) (Result.error invalidError) (Result.ok sampleFile)
          okStatus)
        sampleXptr ["out.parquet"] ["economy"] 0).outcome ≠ Outcome.returned ∧
    (write_parquet_cpp
        (sampleWorld (Result.ok sampleReader) (Result.ok sampleTable) (Result.error ioError)
          okStatus)
        sampleXptr ["out.parquet"] ["economy"] 0).outcome ≠ Outcome.returned ∧
    ∀ e ∈ (write_parquet_cpp
        (sampleWorld (Result.ok sampleReader) (Result.ok sampleTable) (Result.error ioError)
          okStatus)
        sampleXptr ["out.parquet"] ["economy"] 0).trace, e.isWriteTable = false :=
  ⟨(failed_step_aborts_before_write
      (sampleWorld (Result.error invalidError) (Result.ok sampleTable) (Result.ok sampleFile)
        okStatus)
      sampleXptr "out.parquet" [] ["economy"] 0 (Or.inl ⟨invalidError, rfl⟩)).2.1,
   (failed_step_aborts_before_write
      (sampleWorld (Result.ok sampleReader) (Result.error invalidError) (Result.ok sampleFile)
        okStatus)
      sampleXptr "out.parquet" [] ["economy"] 0
      (Or.inr (Or.inl ⟨sampleReader, invalidError, rfl, rfl⟩))).2.1,
   (failed_step_aborts_before_write
      (sampleWorld (Result.ok sampleReader) (Result.ok sampleTable) (Result.error ioError)
        okStatus)
      sampleXptr "out.parquet" [] ["economy"] 0 (Or.inr (Or.inr ⟨ioError, rfl⟩))).2.1,
   (failed_step_aborts_before_write
      (sampleWorld (Result.ok sampleReader) (Result.ok sampleTable) (Result.error ioError)
        okStatus)
      sampleXptr "out.parquet" [] ["economy"] 0 (Or.inr (Or.inr ⟨ioError, rfl⟩))).2.2⟩

/-- C10: when the import succeeds, the materialisation fails and the path can
be opened, the call dies on line 46 with the status of the materialisation,
and the last library call before that is the successful `Open` of the output
file (which creates or truncates it); the table writer is not called.  When
the import itself fails the call dies on line 24 and `Open` is never called. -/
theorem table_failure_surfaces_after_open (world : World) (xptr : SEXP) (file_path : String)
    (rest delta_columns : List String) (encoding : Int) :
    (∀ r s out,
      world.ImportRecordBatchReader (R_ExternalPtrAddr xptr) = Result.ok r →
      world.FromRecordBatchReader r = Result.error s →
      world.Open file_path = Result.ok out →
      (write_parquet_cpp world xptr (file_path :: rest) delta_columns encoding).outcome =
        Outcome.died 46 s ∧
      (write_parquet_cpp world xptr (file_path :: rest) delta_columns encoding).trace.getLast? =
        some (Event.Open file_path (Result.ok out)) ∧
      ∀ e ∈ (write_parquet_cpp world xptr (file_path :: rest) delta_columns encoding).trace,
        e.isWriteTable = false) ∧
    (∀ s,
      world.ImportRecordBatchReader (R_ExternalPtrAddr xptr) = Result.error s →
      (write_parquet_cpp world xptr (file_path :: rest) delta_columns encoding).outcome =
        Outcome.died 24 s ∧
      ∀ e ∈ (write_parquet_cpp world xptr (file_path :: rest) delta_columns encoding).trace,
        e.isOpen = false) := by
  constructor
  · intro r s out hI hT hO
    rw [run_table_error world xptr file_path rest delta_columns encoding r out s hI hT hO]
    refine ⟨rfl, rfl, ?_⟩
    intro e hmem
    simp only [List.mem_cons, List.mem_singleton, List.not_mem_nil, or_false] at hmem
    rcases hmem with h | h | h <;> subst h <;> rfl
  · intro s hI
    rw [run_import_error world xptr file_path rest delta_columns encoding s hI]
    refine ⟨rfl, ?_⟩
    intro e hmem
    simp only [List.mem_singleton] at hmem
    subst hmem
    rfl

/-- C10 in two worlds: the materialisation fails and the file is opened before
the call dies; the import fails and no file is opened. -/
theorem table_failure_surfaces_after_open_witness :
    ((write_parquet_cpp
        (sampleWorld (Result.ok sampleReader) (Result.error invalidError) (Result.ok sampleFile)
          okStatus)
        sampleXptr ["out.parquet"] ["economy"] 0).outcome = Outcome.died 46 invalidError ∧
      (write_parquet_cpp
        (sampleWorld (Result.ok sampleReader) (Result.error invalidError) (Result.ok sampleFile)
          okStatus)
        sampleXptr ["out.parquet"] ["economy"] 0).trace.getLast? =
          some (Event.Open "out.parquet" (Result.ok sampleFile))) ∧
    ((write_parquet_cpp
        (sampleWorld (Result.error invalidError) (Result.error invalidError)
          (Result.ok sampleFile) okStatus)
        sampleXptr ["out.parquet"] ["economy"] 0).outcome = Outcome.died 24 invalidError ∧
      ∀ e ∈ (write_parquet_cpp
        (sampleWorld (Result.error invalidError) (Result.error invalidError)
          (Result.ok sampleFile) okStatus)
        sampleXptr ["out.parquet"] ["economy"] 0).trace, e.isOpen = false) :=
  ⟨⟨((table_failure_surfaces_after_open
        (sampleWorld (Result.ok sampleReader) (Result.error invalidError) (Result.ok sampleFile)
          okStatus)
        sampleXptr "out.parquet" [] ["economy"] 0).1 sampleReader invalidError sampleFile
        rfl rfl rfl).1,
     ((table_failure_surfaces_after_open
        (sampleWorld (Result.ok sampleReader) (Result.error invalidError) (Result.ok sampleFile)
          okStatus)
        sampleXptr "out.parquet" [] ["economy"] 0).1 sampleReader invalidError sampleFile
        rfl rfl rfl).2.1⟩,
   (table_failure_surfaces_after_open
      (sampleWorld (Result.error invalidError) (Result.error invalidError)
        (Result.ok sampleFile) okStatus)
      sampleXptr "out.parquet" [] ["economy"] 0).2 invalidError rfl⟩

/-- C9: the configuration is built without looking at the table.  In any two
worlds whose import, materialisation and opening succeed, with any two tables,
the same selector and the same `delta_columns` give one configuration `p`,
built without an exception; it is the configuration each call hands to the
table writer, and both calls return.  A listed name that is not a column of the
table still has its override in `p` (for a selector other than 2 and 8). -/
theorem configuration_ignores_table_schema (world1 world2 : World) (xptr1 xptr2 : SEXP)
    (path1 path2 : String) (rest1 rest2 delta_columns : List String) (encoding : Int)
    (r1 r2 : RecordBatchReader) (t1 t2 : Table) (o1 o2 : FileOutputStream)
    (hI1 : world1.ImportRecordBatchReader (R_ExternalPtrAddr xptr1) = Result.ok r1)
    (hT1 : world1.FromRecordBatchReader r1 = Result.ok t1)
    (hO1 : world1.Open path1 = Result.ok o1)
    (hI2 : world2.ImportRecordBatchReader (R_ExternalPtrAddr xptr2) = Result.ok r2)
    (hT2 : world2.FromRecordBatchReader r2 = Result.ok t2)
    (hO2 : world2.Open path2 = Result.ok o2) :
    ∃ p, writerProperties delta_columns encoding = Except.ok p ∧
      (write_parquet_cpp world1 xptr1 (path1 :: rest1) delta_columns encoding).outcome =
        Outcome.returned ∧
      (write_parquet_cpp world2 xptr2 (path2 :: rest2) delta_columns encoding).outcome =
        Outcome.returned ∧
      (write_parquet_cpp world1 xptr1 (path1 :: rest1) delta_columns encoding).trace.getLast? =
        some (Event.WriteTable t1 MemoryPool.default_memory_pool o1 chunk_size p
          arrowWriterProperties
          (world1.WriteTable t1 MemoryPool.default_memory_pool o1 chunk_size p
            arrowWriterProperties)) ∧
      (write_parquet_cpp world2 xptr2 (path2 :: rest2) delta_columns encoding).trace.getLast? =
        some (Event.WriteTable t2 MemoryPool.default_memory_pool o2 chunk_size p
          arrowWriterProperties
          (world2.WriteTable t2 MemoryPool.default_memory_pool o2 chunk_size p
            arrowWriterProperties)) ∧
      (encoding ≠ 2 → encoding ≠ 8 →
        ∀ c ∈ delta_columns, c ∉ t1.column_names →
          p.dictionary_enabled c = false ∧ p.encoding c = some (Encoding.type encoding)) := by
  obtain ⟨p, hp⟩ := writerProperties_ok delta_columns encoding
  refine ⟨p, hp, ?_, ?_, ?_, ?_, ?_⟩
  · rw [run_written world1 xptr1 path1 rest1 delta_columns encoding r1 t1 o1 p hI1 hT1 hO1 hp]
  · rw [run_written world2 xptr2 path2 rest2 delta_columns encoding r2 t2 o2 p hI2 hT2 hO2 hp]
  · rw [run_written world1 xptr1 path1 rest1 delta_columns encoding r1 t1 o1 p hI1 hT1 hO1 hp]
    rfl
  · rw [run_written world2 xptr2 path2 rest2 delta_columns encoding r2 t2 o2 p hI2 hT2 hO2 hp]
    rfl
  · intro h2 h8 c hmem _
    obtain ⟨q, hq, _, _, hcol⟩ := writerProperties_override encoding h2 h8 delta_columns
    rw [hp] at hq
    cases hq
    simp [WriterProperties.dictionary_enabled, WriterProperties.encoding,
      WriterProperties.column_properties, hcol, hmem]

/-- C9 on the scenario table and on a table with the single column `year`:
`delta_columns = [economy]` with selector 0 gives both calls one configuration,
in which `economy` is overridden although the second table has no such
column. -/
theorem configuration_ignores_table_schema_witness :
    "economy" ∉ otherTable.column_names ∧
    ∃ p, writerProperties ["economy"] 0 = Except.ok p ∧
      (write_parquet_cpp
        (sampleWorld (Result.ok sampleReader) (Result.ok otherTable) (Result.ok sampleFile)
          okStatus)
        sampleXptr ["out.parquet"] ["economy"] 0).trace.getLast? =
        some (Event.WriteTable otherTable MemoryPool.default_memory_pool sampleFile chunk_size p
          arrowWriterProperties okStatus) ∧
      (write_parquet_cpp
        (sampleWorld (Result.ok sampleReader) (Result.ok sampleTable) (Result.ok sampleFile)
          okStatus)
        sampleXptr ["out.parquet"] ["economy"] 0).trace.getLast? =
        some (Event.WriteTable sampleTable MemoryPool.default_memory_pool sampleFile chunk_size p
          arrowWriterProperties okStatus) ∧
      p.dictionary_enabled "economy" = false ∧
      p.encoding "economy" = some (Encoding.type 0) := by
  have hnot : "economy" ∉ otherTable.column_names := by decide
  obtain ⟨p, hp, _, _, hlast1, hlast2, hover⟩ :=
    configuration_ignores_table_schema
      (sampleWorld (Result.ok sampleReader) (Result.ok otherTable) (Result.ok sampleFile)
        okStatus)
      (sampleWorld (Result.ok sampleReader) (Result.ok sampleTable) (Result.ok sampleFile)
        okStatus)
      sampleXptr sampleXptr "out.parquet" "out.parquet" [] [] ["economy"] 0
      sampleReader sampleReader otherTable sampleTable sampleFile sampleFile
      rfl rfl rfl rfl rfl rfl
  exact ⟨hnot, p, hp, hlast1, hlast2,
    hover (by decide) (by decide) "economy" (by simp) hnot⟩

end WriteParquet
